import Mathlib

/-!
Verification of the long-term path simulation and calibration engine.

Shallow embedding of the Python source files
`FastAPI/Long Term Model/Long Term Model/final_library_generator.py`,
`Long_Short_Term/Long Term Model/Long Term Model/long_term_path_simulator.py` and
`Long_Short_Term/Long Term Model/Long Term Model/optimized_search_parameters.py`.

Floating point arithmetic is modelled over the reals; random draws
(`np.random.rand`, `np.random.randn`, `np.random.uniform`, `np.random.randint`)
are abstracted as explicit streams or per-event data supplied as arguments.
Fallible code (indexing an empty array, nonterminating loops) is modelled with
`Option`.
-/

namespace PathEngine

/-! ### Basic numpy-style list helpers -/

/-- `np.diff`: successive differences of a list. -/
def diffList : List ℝ → List ℝ
  | a :: b :: rest => (b - a) :: diffList (b :: rest)
  | _ => []

/-- `np.cumsum`: running sums (first element included). -/
def cumsum : List ℝ → List ℝ
  | [] => []
  | x :: xs => List.scanl (· + ·) x xs

/-- `np.maximum.accumulate`: running maximum. -/
def runningMax : List ℝ → List ℝ
  | [] => []
  | x :: xs => List.scanl max x xs

/-- `np.min` of a list; the empty case (a numpy error) is given a junk value,
it is never reached through the pipelines. -/
def listMin : List ℝ → ℝ
  | [] => 0
  | x :: xs => xs.foldl min x

/-- `np.mean`: sum divided by length. -/
noncomputable def npMean (xs : List ℝ) : ℝ := xs.foldl (· + ·) 0 / xs.length

/-- `np.percentile` with the default linear interpolation method. -/
noncomputable def np_percentile (q : ℝ) (xs : List ℝ) : ℝ :=
  let s := xs.mergeSort (fun a b => decide (a ≤ b))
  let rank := q / 100 * ((s.length : ℝ) - 1)
  let lo := (⌊rank⌋).toNat
  s.getD lo 0 + (rank - ⌊rank⌋) * (s.getD (lo + 1) (s.getD lo 0) - s.getD lo 0)

/-- Python `int(...)` applied to a number: truncation toward zero. -/
def pyInt (q : ℚ) : ℤ := if 0 ≤ q then ⌊q⌋ else ⌈q⌉

/-- `cumulative_shock[t:] *= dislocation`: multiply the slice of `cum`
starting at index `t` elementwise by `disl`, in place. -/
def mulSliceFrom (cum : List ℝ) (t : ℕ) (disl : List ℝ) : List ℝ :=
  cum.take t ++ List.zipWith (· * ·) (cum.drop t) disl

/-! ### `generate_tanh_ou_path` -/

/-- One step of the tanh-based OU recursion: the body of the `for` loop of
`generate_tanh_ou_path`, with `rand_i` the draw `np.random.randn()` for step `i`. -/
noncomputable def ouStep (mu sigma kappa beta log_S0 : ℝ) (rand_i : ℝ) (i : ℕ) (X : ℝ) : ℝ :=
  let dt : ℝ := 1 / 252
  let t := ((i : ℝ) + 1) * dt
  let target_mu_t := log_S0 + mu * t
  let reversion_force := -kappa * Real.tanh (beta * (X - target_mu_t)) * dt
  let random_shock := sigma * Real.sqrt dt * rand_i
  X + reversion_force + random_shock

/-- The state `X` of `generate_tanh_ou_path` after `n` loop iterations. -/
noncomputable def ouState (mu sigma kappa beta log_S0 : ℝ) (rand : ℕ → ℝ) : ℕ → ℝ
  | 0 => log_S0
  | n + 1 => ouStep mu sigma kappa beta log_S0 (rand n) n (ouState mu sigma kappa beta log_S0 rand n)

/-- `generate_tanh_ou_path(days, mu, sigma, kappa, beta, S0)`: the list
`path` built by the loop (a log-price trajectory), with the Gaussian draws
abstracted as the stream `rand`. -/
noncomputable def generate_tanh_ou_path (days : ℕ) (mu sigma kappa beta : ℝ)
    (rand : ℕ → ℝ) (S0 : ℝ := 1) : List ℝ :=
  (List.range (days + 1)).map (ouState mu sigma kappa beta (Real.log S0) rand)

/-! ### `apply_return_capping` -/

/-- `apply_return_capping(prices, gamma)`.  Returns `none` exactly when the
Python code raises (indexing `new_prices[0]` of an empty array with
`gamma > 0`). -/
noncomputable def apply_return_capping (prices : List ℝ) (gamma : ℝ) : Option (List ℝ) :=
  if gamma ≤ 0 then some prices
  else
    match prices with
    | [] => none
    | p0 :: _ =>
      let safe_prices := prices.map (fun p => max p (1 / 1000000000))
      let log_returns := diffList (safe_prices.map Real.log)
      let capped_log_returns := log_returns.map (fun r => 1 / gamma * Real.tanh (gamma * r))
      some (p0 :: (cumsum capped_log_returns).map (fun c => p0 * Real.exp c))

/-! ### `simulate_dislocation` -/

/-- The local lambda `L` of `simulate_dislocation`:
`1/(1 + np.exp(-shape_k * (x/d - 0.5))) if d > 0 else np.zeros_like(x)`. -/
noncomputable def logisticCurve (shape_k : ℝ) (x d : ℕ) : ℝ :=
  if 0 < d then 1 / (1 + Real.exp (-shape_k * ((x : ℝ) / (d : ℝ) - 1 / 2))) else 0

/-- `simulate_dislocation(total_days, drop_frac, drop_days, rec_days, shape_k,
recovery_target)`: the crisis shock envelope. -/
noncomputable def simulate_dislocation (total_days : ℕ) (drop_frac : ℝ)
    (drop_days rec_days : ℤ) (shape_k : ℝ := 10) (recovery_target : ℝ := 1) : List ℝ :=
  if drop_days ≤ 0 ∨ rec_days ≤ 0 then List.replicate total_days 1
  else
    let dd := drop_days.toNat
    let rd := rec_days.toNat
    let decline_factor := (List.range dd).map (fun x => 1 - drop_frac * logisticCurve shape_k x dd)
    let start_of_recovery := 1 - drop_frac
    let recovery_range := recovery_target - start_of_recovery
    let recovery_factor :=
      (List.range rd).map (fun x => start_of_recovery + recovery_range * logisticCurve shape_k x rd)
    let shock := decline_factor ++ recovery_factor
    shock.take total_days ++ List.replicate (total_days - shock.length) 1

/-! ### `count_lost_periods` -/

/-- The `while` loop of `count_lost_periods`.  The guard `i <= len - period`
is rendered as `i + period ≤ len`; the loop only makes progress when
`0 < period` (the source errors or diverges otherwise, handled by the
caller). -/
noncomputable def lostLoop (prices highs : List ℝ) (period : ℕ) (i count : ℕ) : ℕ :=
  if h : 0 < period ∧ i + period ≤ prices.length then
    let peak := highs.getD i 0
    if prices.getD i 0 < peak then
      if (List.range period).all (fun j => decide (prices.getD (i + j) 0 < peak)) then
        lostLoop prices highs period (i + period) (count + 1)
      else
        lostLoop prices highs period (i + 1) count
    else
      lostLoop prices highs period (i + 1) count
  else count
termination_by prices.length + 1 - i
decreasing_by
  · omega
  · omega
  · omega

/-- `count_lost_periods(prices, period_length_years)`.  Returns `none` when
`int(period_length_years * 252) <= 0` and the guard does not fire, in which
case the Python loop raises `IndexError` or never terminates. -/
noncomputable def count_lost_periods (prices : List ℝ) (period_length_years : ℚ) : Option ℕ :=
  let period_length_days : ℤ := pyInt (period_length_years * 252)
  if (prices.length : ℤ) < period_length_days then some 0
  else if period_length_days ≤ 0 then none
  else some (lostLoop prices (runningMax prices) period_length_days.toNat 0 0)

/-! ### `generate_clustered_crisis_events` -/

/-- Severity class of a crisis event. -/
inductive EvClass
  | minor
  | major
  deriving DecidableEq

/-- Mutable state of the day-by-day scan of `generate_clustered_crisis_events`. -/
structure SchedState where
  boosted_minor_until : ℤ
  boosted_major_until : ℤ
  major_cooldown_until : ℤ
  events : List (ℕ × EvClass)

/-- Initial scheduler state: `boosted_minor_until, boosted_major_until,
major_cooldown_until = -1, -1, -1` and no events. -/
def initSchedState : SchedState := ⟨-1, -1, -1, []⟩

/-- `minor_rate_today` for a given day and state (boost factor, then the
cooldown override to `0.0`). -/
noncomputable def minor_rate_today (base_minor_rate k : ℝ) (day : ℕ) (s : SchedState) : ℝ :=
  let r := base_minor_rate * (if (day : ℤ) < s.boosted_minor_until then k else 1)
  if (day : ℤ) < s.major_cooldown_until then 0 else r

/-- `major_rate_today` for a given day and state. -/
noncomputable def major_rate_today (base_major_rate k : ℝ) (day : ℕ) (s : SchedState) : ℝ :=
  let r := base_major_rate * (if (day : ℤ) < s.boosted_major_until then k else 1)
  if (day : ℤ) < s.major_cooldown_until then 0 else r

/-- The body of the `for day in range(days)` loop, with `rand_minor` and
`rand_major` the two `np.random.rand()` draws of that day. -/
noncomputable def schedStep (base_minor_rate base_major_rate k : ℝ)
    (boost_period cooldown_period : ℕ) (rand_minor rand_major : ℝ)
    (day : ℕ) (s : SchedState) : SchedState :=
  let mr := minor_rate_today base_minor_rate k day s
  let Mr := major_rate_today base_major_rate k day s
  let s1 :=
    if rand_minor < mr then
      { s with events := s.events ++ [(day, EvClass.minor)],
               boosted_minor_until := (day : ℤ) + boost_period }
    else s
  if rand_major < Mr then
    { s1 with events := s1.events ++ [(day, EvClass.major)],
              boosted_major_until := (day : ℤ) + boost_period,
              major_cooldown_until := (day : ℤ) + cooldown_period }
  else s1

/-- State after the loop has processed days `0, …, n-1`. -/
noncomputable def runSched (base_minor_rate base_major_rate k : ℝ)
    (boost_period cooldown_period : ℕ) (rand_minor rand_major : ℕ → ℝ) : ℕ → SchedState
  | 0 => initSchedState
  | n + 1 =>
    schedStep base_minor_rate base_major_rate k boost_period cooldown_period
      (rand_minor n) (rand_major n) n
      (runSched base_minor_rate base_major_rate k boost_period cooldown_period
        rand_minor rand_major n)

/-- Python's tuple ordering on `(day, 'minor'|'major')`: by day, then by the
string, where `'major' < 'minor'` lexicographically. -/
def eventKey : EvClass → ℕ
  | EvClass.major => 0
  | EvClass.minor => 1

/-- Comparison used by `sorted(events)`. -/
def eventLE (a b : ℕ × EvClass) : Bool :=
  decide (a.1 < b.1) || (decide (a.1 = b.1) && decide (eventKey a.2 ≤ eventKey b.2))

/-- Default `boost_period` of `generate_clustered_crisis_events`. -/
def boost_period_default : ℕ := 2000

/-- Default `cooldown_period` of `generate_clustered_crisis_events`. -/
def cooldown_period_default : ℕ := 756

/-- `generate_clustered_crisis_events(days, base_minor_rate, base_major_rate,
k, boost_period, cooldown_period)` with the per-day uniform draws abstracted
as the streams `rand_minor`, `rand_major`. -/
noncomputable def generate_clustered_crisis_events (days : ℕ)
    (base_minor_rate base_major_rate k : ℝ) (rand_minor rand_major : ℕ → ℝ)
    (boost_period : ℕ := boost_period_default)
    (cooldown_period : ℕ := cooldown_period_default) : List (ℕ × EvClass) :=
  (runSched base_minor_rate base_major_rate k boost_period cooldown_period
      rand_minor rand_major days).events.mergeSort eventLE

end PathEngine

namespace PathEngine

/-! ### First theorems -/

/-- The OU path is the range-map of `ouState`, so its length is immediate. -/
theorem generate_tanh_ou_path_length (days : ℕ) (mu sigma kappa beta : ℝ)
    (rand : ℕ → ℝ) (S0 : ℝ) :
    (generate_tanh_ou_path days mu sigma kappa beta rand S0).length = days + 1 := by
  simp [generate_tanh_ou_path]

/-- C1 (amended): for every horizon and parameters, `generate_tanh_ou_path`
returns a sequence of length `horizon + 1` whose first element equals
`log S0` exactly (the function produces a log-price trajectory). -/
theorem generate_tanh_ou_path_spec (days : ℕ) (mu sigma kappa beta : ℝ)
    (rand : ℕ → ℝ) (S0 : ℝ) :
    (generate_tanh_ou_path days mu sigma kappa beta rand S0).length = days + 1 ∧
      (generate_tanh_ou_path days mu sigma kappa beta rand S0).getD 0 0 = Real.log S0 := by
  refine ⟨generate_tanh_ou_path_length days mu sigma kappa beta rand S0, ?_⟩
  rw [generate_tanh_ou_path, List.range_succ_eq_map]
  simp [ouState]

/-- C1 (counterexample): at horizon `0`, parameters `mu = sigma = kappa =
beta = 0` and start price `S0 = 1`, the first element of the generated
sequence is `log 1 = 0`, not `S0 = 1`; so the claim that the output starts
at `S0` exactly is false on the code. -/
theorem generate_tanh_ou_path_start_counterexample :
    ¬ ((generate_tanh_ou_path 0 0 0 0 0 (fun _ => 0) 1).length = 0 + 1 ∧
        (generate_tanh_ou_path 0 0 0 0 0 (fun _ => 0) 1).getD 0 0 = 1) := by
  rintro ⟨-, h⟩
  rw [generate_tanh_ou_path, List.range_succ_eq_map] at h
  simp [ouState] at h

/-- C7: the Return Capping Filter is the identity transform whenever
`gamma ≤ 0`, and whenever it returns a path that path has the same first
element as the input. -/
theorem apply_return_capping_spec (prices : List ℝ) (gamma : ℝ) :
    (gamma ≤ 0 → apply_return_capping prices gamma = some prices) ∧
      (∀ out, apply_return_capping prices gamma = some out → out.head? = prices.head?) := by
  constructor
  · intro h
    simp [apply_return_capping, h]
  · intro out hout
    by_cases h : gamma ≤ 0
    · rw [apply_return_capping.eq_def, if_pos h] at hout
      cases hout
      rfl
    · rw [apply_return_capping.eq_def, if_neg h] at hout
      cases prices with
      | nil => simp at hout
      | cons p0 rest =>
        simp only [Option.some.injEq] at hout
        subst hout
        rfl

/-- C7 (witness): at `prices = [1, 2]` and `gamma = -1` the filter returns
the input unchanged, and in particular preserves the head. -/
theorem apply_return_capping_spec_witness :
    apply_return_capping [(1 : ℝ), 2] (-1) = some [(1 : ℝ), 2] ∧
      ([(1 : ℝ), 2] : List ℝ).head? = some 1 := by
  have h := apply_return_capping_spec [(1 : ℝ), 2] (-1)
  have h1 := h.1 (by norm_num)
  exact ⟨h1, rfl⟩

/-- C10: whenever the price path is strictly shorter than
`int(period_length_years * 252)` days, `count_lost_periods` returns `0`. -/
theorem count_lost_periods_short_path (prices : List ℝ) (period_length_years : ℚ)
    (h : (prices.length : ℤ) < pyInt (period_length_years * 252)) :
    count_lost_periods prices period_length_years = some 0 := by
  rw [count_lost_periods, if_pos h]

/-- C10 (witness): the empty path with `period_length_years = 1`
(`int(1 * 252) = 252 > 0`) yields a count of `0`. -/
theorem count_lost_periods_short_path_witness :
    ((([] : List ℝ).length : ℤ) < pyInt ((1 : ℚ) * 252)) ∧
      count_lost_periods [] 1 = some 0 := by
  have hlt : ((([] : List ℝ).length : ℤ) < pyInt ((1 : ℚ) * 252)) := by
    norm_num [pyInt]
  exact ⟨hlt, count_lost_periods_short_path [] 1 hlt⟩

end PathEngine

namespace PathEngine

/-! ### `simulate_dislocation`: length and shape facts -/

/-- Length of the concatenated decline+recovery curve in the
non-degenerate branch. -/
theorem simulate_dislocation_shock_length (dd rd : ℕ) (drop_frac shape_k recovery_target : ℝ) :
    (((List.range dd).map (fun x => 1 - drop_frac * logisticCurve shape_k x dd)) ++
        ((List.range rd).map (fun x =>
          (1 - drop_frac) + (recovery_target - (1 - drop_frac)) * logisticCurve shape_k x rd))).length
      = dd + rd := by
  simp

/-- In the non-degenerate branch, the entry of the envelope at a decline
index is the decline logistic value. -/
theorem simulate_dislocation_getD_decline (total_days : ℕ) (drop_frac : ℝ)
    (drop_days rec_days : ℤ) (shape_k recovery_target : ℝ) (i : ℕ)
    (hguard : ¬ (drop_days ≤ 0 ∨ rec_days ≤ 0))
    (hi : i < drop_days.toNat) (hit : i < total_days) :
    (simulate_dislocation total_days drop_frac drop_days rec_days shape_k recovery_target).getD i 0
      = 1 - drop_frac * logisticCurve shape_k i drop_days.toNat := by
  rw [simulate_dislocation, if_neg hguard]
  rw [List.getD_eq_getElem?_getD, List.getElem?_append, List.length_take]
  have hshock := simulate_dislocation_shock_length drop_days.toNat rec_days.toNat
    drop_frac shape_k recovery_target
  rw [if_pos (by rw [hshock]; omega)]
  rw [List.getElem?_take, if_pos hit, List.getElem?_append,
    if_pos (by simp; omega), List.getElem?_map, List.getElem?_range hi]
  rfl

/-- C9: `simulate_dislocation` always returns a series of length
`total_days`: in the degenerate case (`drop_days ≤ 0` or `rec_days ≤ 0`) it
is identically `1`, every index at or past the decline+recovery curve is
`1`, and multiplying it into a cumulative shock series from any event day
`t` leaves the series length unchanged. -/
theorem simulate_dislocation_total_length (total_days : ℕ) (drop_frac : ℝ)
    (drop_days rec_days : ℤ) (shape_k recovery_target : ℝ) :
    (simulate_dislocation total_days drop_frac drop_days rec_days shape_k recovery_target).length
        = total_days ∧
      ((drop_days ≤ 0 ∨ rec_days ≤ 0) →
        simulate_dislocation total_days drop_frac drop_days rec_days shape_k recovery_target
          = List.replicate total_days 1) ∧
      (∀ i, drop_days.toNat + rec_days.toNat ≤ i → i < total_days →
        (simulate_dislocation total_days drop_frac drop_days rec_days
            shape_k recovery_target).getD i 0 = 1) ∧
      (∀ (cum : List ℝ) (t : ℕ), t ≤ cum.length →
        (mulSliceFrom cum t
            (simulate_dislocation (cum.length - t) drop_frac drop_days rec_days
              shape_k recovery_target)).length = cum.length) := by
  have hlen : ∀ n, (simulate_dislocation n drop_frac drop_days rec_days
      shape_k recovery_target).length = n := by
    intro n
    rw [simulate_dislocation]
    by_cases hg : drop_days ≤ 0 ∨ rec_days ≤ 0
    · rw [if_pos hg]; simp
    · rw [if_neg hg]
      simp only [List.length_append, List.length_take, List.length_replicate]
      omega
  refine ⟨hlen total_days, ?_, ?_, ?_⟩
  · intro hg
    rw [simulate_dislocation, if_pos hg]
  · intro i hpast hit
    rw [simulate_dislocation]
    by_cases hg : drop_days ≤ 0 ∨ rec_days ≤ 0
    · rw [if_pos hg, List.getD_eq_getElem?_getD, List.getElem?_replicate, if_pos hit]
      rfl
    · rw [if_neg hg]
      have hshock := simulate_dislocation_shock_length drop_days.toNat rec_days.toNat
        drop_frac shape_k recovery_target
      rw [List.getD_eq_getElem?_getD, List.getElem?_append, List.length_take]
      rw [if_neg (by rw [hshock]; omega)]
      rw [List.getElem?_replicate, if_pos (by rw [hshock]; omega)]
      rfl
  · intro cum t ht
    rw [mulSliceFrom, List.length_append, List.length_take, List.length_zipWith,
      List.length_drop, hlen]
    omega

/-- C9 (witness): concrete instances: index `2` of a `3`-day envelope with a
`1+1`-day curve is `1`; the fully degenerate envelope over `2` days is
`[1, 1]`; composing from day `1` into a length-`2` series preserves length. -/
theorem simulate_dislocation_total_length_witness :
    (simulate_dislocation 3 0 1 1 0 1).getD 2 0 = 1 ∧
      simulate_dislocation 2 0 0 1 0 1 = List.replicate 2 1 ∧
      (mulSliceFrom [(1 : ℝ), 1] 1 (simulate_dislocation (([(1 : ℝ), 1]).length - 1) 0 1 1 0 1)).length
        = ([(1 : ℝ), 1]).length :=
  ⟨(simulate_dislocation_total_length 3 0 1 1 0 1).2.2.1 2 (by decide) (by decide),
   (simulate_dislocation_total_length 2 0 0 1 0 1).2.1 (Or.inl (by decide)),
   (simulate_dislocation_total_length 2 0 1 1 0 1).2.2.2 [(1 : ℝ), 1] 1 (by norm_num)⟩

/-- C3 (amended): for positive decline/recovery spans and a drop fraction in
`(0, 1)`, every envelope factor in the decline span lies in `(0, 1]`, but
the factor at index `0` of the event's local window is
`1 - drop_frac / (1 + exp(shape_k / 2))`, which is strictly below `1` for
positive `drop_frac` (a small jump at event onset, not exact continuity). -/
theorem simulate_dislocation_decline_spec (total_days : ℕ) (drop_frac : ℝ)
    (drop_days rec_days : ℤ) (shape_k recovery_target : ℝ)
    (hdd : 0 < drop_days) (hrd : 0 < rec_days)
    (hdrop0 : 0 < drop_frac) (hdrop1 : drop_frac < 1) :
    (∀ i, i < drop_days.toNat → i < total_days →
        0 < (simulate_dislocation total_days drop_frac drop_days rec_days
              shape_k recovery_target).getD i 0 ∧
          (simulate_dislocation total_days drop_frac drop_days rec_days
              shape_k recovery_target).getD i 0 ≤ 1) ∧
      (0 < total_days →
        (simulate_dislocation total_days drop_frac drop_days rec_days
            shape_k recovery_target).getD 0 0
          = 1 - drop_frac * (1 / (1 + Real.exp (shape_k / 2))) ∧
        (simulate_dislocation total_days drop_frac drop_days rec_days
            shape_k recovery_target).getD 0 0 < 1) := by
  have hguard : ¬ (drop_days ≤ 0 ∨ rec_days ≤ 0) := by omega
  have hL : ∀ x : ℕ, 0 < logisticCurve shape_k x drop_days.toNat ∧
      logisticCurve shape_k x drop_days.toNat < 1 := by
    intro x
    rw [logisticCurve, if_pos (by omega)]
    have he := Real.exp_pos (-shape_k * ((x : ℝ) / (drop_days.toNat : ℝ) - 1 / 2))
    constructor
    · positivity
    · rw [div_lt_one (by linarith)]
      linarith
  have hfac : ∀ x : ℕ, 0 < 1 - drop_frac * logisticCurve shape_k x drop_days.toNat ∧
      1 - drop_frac * logisticCurve shape_k x drop_days.toNat ≤ 1 := by
    intro x
    obtain ⟨h0, h1⟩ := hL x
    constructor
    · nlinarith
    · nlinarith
  constructor
  · intro i hi hit
    rw [simulate_dislocation_getD_decline total_days drop_frac drop_days rec_days
      shape_k recovery_target i hguard hi hit]
    exact hfac i
  · intro htot
    rw [simulate_dislocation_getD_decline total_days drop_frac drop_days rec_days
      shape_k recovery_target 0 hguard (by omega) htot]
    have harg : -shape_k * ((0 : ℕ) / (drop_days.toNat : ℝ) - 1 / 2) = shape_k / 2 := by
      push_cast
      ring
    rw [logisticCurve, if_pos (by omega), harg]
    refine ⟨rfl, ?_⟩
    have he := Real.exp_pos (shape_k / 2)
    have hpos : 0 < 1 / (1 + Real.exp (shape_k / 2)) := by positivity
    nlinarith

/-- C3 (witness): at `total_days = 2`, `drop_frac = 1/2`, one-day decline
and recovery and `shape_k = 10`, the onset factor is positive, at most `1`,
and strictly below `1`. -/
theorem simulate_dislocation_decline_spec_witness :
    (0 < (simulate_dislocation 2 (1 / 2) 1 1 10 1).getD 0 0 ∧
        (simulate_dislocation 2 (1 / 2) 1 1 10 1).getD 0 0 ≤ 1) ∧
      (simulate_dislocation 2 (1 / 2) 1 1 10 1).getD 0 0 < 1 := by
  have h := simulate_dislocation_decline_spec 2 (1 / 2) 1 1 10 1
    (by decide) (by decide) (by norm_num) (by norm_num)
  exact ⟨h.1 0 (by decide) (by decide), (h.2 (by decide)).2⟩

/-- C3 (counterexample): at `total_days = 2`, `drop_frac = 1/2`,
`drop_days = rec_days = 1`, `shape_k = 10`, the factor at index `0` of the
event's local window is `1 - (1/2) / (1 + e^5) ≠ 1`: the envelope does not
start at exactly `1.0`. -/
theorem simulate_dislocation_onset_counterexample :
    (simulate_dislocation 2 (1 / 2) 1 1 10 1).getD 0 0 ≠ 1 := by
  rw [simulate_dislocation_getD_decline 2 (1 / 2) 1 1 10 1 0
    (by decide) (by decide) (by decide)]
  rw [logisticCurve, if_pos (by decide)]
  have harg : -(10 : ℝ) * (((0 : ℕ) : ℝ) / (((1 : ℤ).toNat : ℝ)) - 1 / 2) = 5 := by
    norm_num
  rw [harg]
  intro h
  have hexp := Real.exp_pos (5 : ℝ)
  have hpos : 0 < 1 / (1 + Real.exp 5) := by positivity
  nlinarith

end PathEngine

namespace PathEngine

/-! ### Shock composition: batch pipeline vs. interactive reporting pipeline -/

/-- `apply_tanh_damping(drop_frac, current_drawdown, threshold=0.5, cap=0.65,
alpha=70)` from `optimized_search_parameters.py` (imported by
`long_term_path_simulator.py`). -/
noncomputable def apply_tanh_damping (drop_frac current_drawdown : ℝ)
    (threshold : ℝ := 1 / 2) (cap : ℝ := 13 / 20) (alpha : ℝ := 70) : ℝ :=
  if current_drawdown < threshold then drop_frac
  else if cap ≤ current_drawdown then 0
  else drop_frac * (1 / 2) * (1 - Real.tanh (alpha * (current_drawdown - threshold)))

/-- The per-event data consumed by the shock-composition loops: the event day
`t` together with the uniformly drawn drop fraction, decline and recovery
durations and recovery target of that event. -/
structure ShockEvent where
  t : ℕ
  drop : ℝ
  drop_days : ℤ
  rec_days : ℤ
  rec_target : ℝ

/-- The `for t, typ in events` shock-composition loop of
`run_single_path_for_objective` (and of `generate_final_statistics_library`)
in `final_library_generator.py`: no drawdown tracking, the drawn drop
fraction is used as is. -/
noncomputable def composeShocksCalib (days_long : ℕ) (evs : List ShockEvent) : List ℝ :=
  evs.foldl
    (fun cum e =>
      mulSliceFrom cum e.t
        (simulate_dislocation (days_long + 1 - e.t) e.drop e.drop_days e.rec_days 10 e.rec_target))
    (List.replicate (days_long + 1) 1)

/-- The shock-composition loop of `run_and_report_simulation` in
`long_term_path_simulator.py` (identical in `objective_function` of
`optimized_search_parameters.py`): a running peak is maintained, the current
drawdown is computed immediately before each event, and the drawn drop
fraction is damped by `apply_tanh_damping` before the envelope is built. -/
noncomputable def composeShocksReport (base_prices : List ℝ) (days_long : ℕ)
    (evs : List ShockEvent) : List ℝ :=
  (evs.foldl
    (fun (st : List ℝ × ℝ) e =>
      let price_before_shock := base_prices.getD e.t 0 * st.1.getD e.t 0
      let peak := max st.2 price_before_shock
      let current_dd := 1 - price_before_shock / peak
      let damped_drop := apply_tanh_damping e.drop current_dd
      (mulSliceFrom st.1 e.t
          (simulate_dislocation (days_long + 1 - e.t) damped_drop e.drop_days e.rec_days
            10 e.rec_target),
        peak))
    (List.replicate (days_long + 1) 1, base_prices.getD 0 0)).1

/-- The common composition, parametrized by the transform applied to the
drawn drop fraction given the current drawdown. -/
noncomputable def composeShocksWith (damp : ℝ → ℝ → ℝ) (base_prices : List ℝ)
    (days_long : ℕ) (evs : List ShockEvent) : List ℝ :=
  (evs.foldl
    (fun (st : List ℝ × ℝ) e =>
      let price_before_shock := base_prices.getD e.t 0 * st.1.getD e.t 0
      let peak := max st.2 price_before_shock
      let current_dd := 1 - price_before_shock / peak
      let damped_drop := damp e.drop current_dd
      (mulSliceFrom st.1 e.t
          (simulate_dislocation (days_long + 1 - e.t) damped_drop e.drop_days e.rec_days
            10 e.rec_target),
        peak))
    (List.replicate (days_long + 1) 1, base_prices.getD 0 0)).1

/-- The cumulative-shock component of the generic composition does not
depend on the peak state when the drop transform ignores the drawdown. -/
theorem composeShocksWith_id_foldl (days_long : ℕ) (evs : List ShockEvent) :
    ∀ (cum : List ℝ) (bp : List ℝ) (peak : ℝ),
      (evs.foldl
        (fun (st : List ℝ × ℝ) e =>
          (mulSliceFrom st.1 e.t
              (simulate_dislocation (days_long + 1 - e.t) e.drop e.drop_days e.rec_days
                10 e.rec_target),
            max st.2 (bp.getD e.t 0 * st.1.getD e.t 0)))
        (cum, peak)).1
      = evs.foldl
          (fun cum e =>
            mulSliceFrom cum e.t
              (simulate_dislocation (days_long + 1 - e.t) e.drop e.drop_days e.rec_days
                10 e.rec_target))
          cum := by
  induction evs with
  | nil => intro cum bp peak; rfl
  | cons e rest ih =>
    intro cum bp peak
    simp only [List.foldl_cons]
    exact ih _ bp _

/-- C2: the batch calibration/library-generation pipeline and the
interactive single-run reporting pipeline are the same shock composition up
to the transform applied to each event's drop fraction: the batch pipeline
composes with the identity transform (no drawdown damping), while the
reporting pipeline composes with `apply_tanh_damping` of the current
drawdown. -/
theorem shock_composition_damping_spec :
    (∀ (base_prices : List ℝ) (days_long : ℕ) (evs : List ShockEvent),
        composeShocksCalib days_long evs
          = composeShocksWith (fun drop _ => drop) base_prices days_long evs) ∧
      (∀ (base_prices : List ℝ) (days_long : ℕ) (evs : List ShockEvent),
        composeShocksReport base_prices days_long evs
          = composeShocksWith (fun drop dd => apply_tanh_damping drop dd)
              base_prices days_long evs) := by
  constructor
  · intro base_prices days_long evs
    rw [composeShocksCalib, composeShocksWith]
    exact (composeShocksWith_id_foldl days_long evs _ base_prices _).symm
  · intro base_prices days_long evs
    rfl

/-! ### `create_parameter_library` / `create_or_update_parameter_library` -/

/-- A target scenario `{'mean': …, 'spread': …}`. -/
structure Scenario where
  mean : ℝ
  spread : ℝ

/-- A row of the persisted `param_library.csv`. -/
structure ParamEntry where
  target_mean : ℝ
  target_spread : ℝ
  opt_mu : ℝ
  opt_sigma : ℝ
  opt_kappa : ℝ

/-- `np.isclose(a, b)` with the default tolerances
`atol = 1e-8`, `rtol = 1e-5`: `|a - b| <= atol + rtol * |b|`. -/
noncomputable def np_isclose (a b : ℝ) : Bool :=
  decide (|a - b| ≤ 1 / 100000000 + 1 / 100000 * |b|)

/-- The per-scenario existence check of `create_parameter_library`:
`np.any(np.isclose(df['target_mean'], s['mean']) &
np.isclose(df['target_spread'], s['spread']))`. -/
noncomputable def scenario_done (df : List ParamEntry) (s : Scenario) : Bool :=
  df.any (fun e => np_isclose e.target_mean s.mean && np_isclose e.target_spread s.spread)

/-- `create_parameter_library(target_scenarios)` operating on an explicit
table `df` (the content of the CSV file), with the differential-evolution
solver abstracted as the black box `opt` mapping a scenario to the best
`(mu, sigma, kappa)`.  Returns the updated table together with the number of
scenarios for which the optimizer was invoked.
`create_or_update_parameter_library` in `optimized_search_parameters.py`
computes the identical table (its explicit empty-table branch coincides with
filtering against an empty table). -/
noncomputable def create_parameter_library (opt : Scenario → ℝ × ℝ × ℝ)
    (target_scenarios : List Scenario) (df : List ParamEntry) : List ParamEntry × ℕ :=
  let scenarios_to_run := target_scenarios.filter (fun s => ! scenario_done df s)
  (df ++ scenarios_to_run.map (fun s =>
      { target_mean := s.mean, target_spread := s.spread,
        opt_mu := (opt s).1, opt_sigma := (opt s).2.1, opt_kappa := (opt s).2.2 }),
    scenarios_to_run.length)

/-- `np.isclose` holds reflexively (the default absolute tolerance is
positive). -/
theorem np_isclose_self (x : ℝ) : np_isclose x x = true := by
  rw [np_isclose, decide_eq_true_eq]
  have : |x - x| = 0 := by simp
  rw [this]
  positivity

/-- C4: running the Scenario Calibrator twice on the same target list
against the shared persisted table performs zero optimizer evaluations on
the second run and returns the table unchanged. -/
theorem create_parameter_library_idempotent (opt : Scenario → ℝ × ℝ × ℝ)
    (target_scenarios : List Scenario) (df : List ParamEntry) :
    create_parameter_library opt target_scenarios
        (create_parameter_library opt target_scenarios df).1
      = ((create_parameter_library opt target_scenarios df).1, 0) := by
  set df1 := (create_parameter_library opt target_scenarios df).1 with hdf1
  have hdone : ∀ s ∈ target_scenarios, scenario_done df1 s = true := by
    intro s hs
    by_cases hd : scenario_done df s = true
    · rw [hdf1, create_parameter_library, scenario_done, List.any_append]
      rw [scenario_done] at hd
      rw [hd, Bool.true_or]
    · have hmem : s ∈ target_scenarios.filter (fun s => ! scenario_done df s) :=
        List.mem_filter.mpr ⟨hs, by simp [hd]⟩
      rw [hdf1, create_parameter_library, scenario_done, List.any_append]
      have hr : (List.map (fun s =>
          ({ target_mean := s.mean, target_spread := s.spread,
             opt_mu := (opt s).1, opt_sigma := (opt s).2.1,
             opt_kappa := (opt s).2.2 } : ParamEntry))
          (target_scenarios.filter (fun s => ! scenario_done df s))).any
          (fun e => np_isclose e.target_mean s.mean && np_isclose e.target_spread s.spread)
          = true := by
        rw [List.any_eq_true]
        refine ⟨_, List.mem_map.mpr ⟨s, hmem, rfl⟩, ?_⟩
        rw [np_isclose_self, np_isclose_self]
        rfl
      rw [hr, Bool.or_true]
  have hfilter : target_scenarios.filter (fun s => ! scenario_done df1 s) = [] := by
    rw [List.filter_eq_nil_iff]
    intro s hs
    rw [hdone s hs]
    simp
  rw [create_parameter_library, hfilter]
  simp

end PathEngine

namespace PathEngine

/-! ### `generate_final_statistics_library` -/

/-- `max_drop` of a path: `1 - np.min(path / np.maximum.accumulate(path))`. -/
noncomputable def max_drop_stat (path : List ℝ) : ℝ :=
  1 - listMin (List.zipWith (· / ·) path (runningMax path))

/-- The acceptance filter of the Library Builder:
`max_drop <= 0.75 and lost_decades <= 2` (the impossible error case of
`count_lost_periods` with a ten-year period rejects). -/
noncomputable def path_accepted (path : List ℝ) : Bool :=
  ((count_lost_periods path 10).map
    (fun n => decide (max_drop_stat path ≤ 3 / 4) && decide (n ≤ 2))).getD false

/-- A row of the final statistics table. -/
structure FinalStatsRow where
  path_id : ℕ
  target_mean : ℝ
  target_spread : ℝ
  actual_annual_return : ℝ
  actual_spread : ℝ
  scenario_p05_price : ℝ
  scenario_p95_price : ℝ
  max_drop : ℝ
  lost_decades : Option ℕ

/-- The per-scenario body of `generate_final_statistics_library`: the
generated paths of the scenario are supplied explicitly (the path-generation
randomness abstracted away), filtered by the acceptance test, the
scenario-wide percentile statistics are computed over the accepted paths,
and one row per accepted path is emitted.  `start_id` is `len(final_stats)`
on entering the scenario, so `path_id` is the global row index. -/
noncomputable def scenario_rows (entry : ParamEntry) (paths : List (List ℝ))
    (start_id : ℕ) : List FinalStatsRow :=
  let scenario_paths := paths.filter path_accepted
  if scenario_paths.isEmpty then []
  else
    let final_prices_at_end := scenario_paths.map (fun p => p.getLast?.getD 0)
    let scenario_p05 := np_percentile 5 final_prices_at_end
    let scenario_p95 := np_percentile 95 final_prices_at_end
    let actual_spread := (scenario_p95 - scenario_p05) / npMean final_prices_at_end
    scenario_paths.enum.map (fun ip =>
      { path_id := start_id + ip.1,
        target_mean := entry.target_mean,
        target_spread := entry.target_spread,
        actual_annual_return := (ip.2.getLast?.getD 0 / ip.2.getD 0 0) ^ ((1 : ℝ) / 40) - 1,
        actual_spread := actual_spread,
        scenario_p05_price := scenario_p05,
        scenario_p95_price := scenario_p95,
        max_drop := max_drop_stat ip.2,
        lost_decades := count_lost_periods ip.2 10 })

/-- `generate_final_statistics_library(param_df)`: iterate the scenarios of
the parameter table, each paired with the paths its inner loop generated,
and accumulate the accepted rows. -/
noncomputable def generate_final_statistics_library
    (scenarios : List (ParamEntry × List (List ℝ))) : List FinalStatsRow :=
  scenarios.foldl (fun acc sc => acc ++ scenario_rows sc.1 sc.2 acc.length) []

/-- An accepted path satisfies both acceptance bounds. -/
theorem path_accepted_bounds (p : List ℝ) (hacc : path_accepted p = true) :
    max_drop_stat p ≤ 3 / 4 ∧ ∃ n, count_lost_periods p 10 = some n ∧ n ≤ 2 := by
  rw [path_accepted] at hacc
  cases hc : count_lost_periods p 10 with
  | none => rw [hc] at hacc; simp at hacc
  | some n =>
    rw [hc] at hacc
    simp only [Option.map_some', Option.getD_some, Bool.and_eq_true, decide_eq_true_eq] at hacc
    exact ⟨hacc.1, n, rfl, hacc.2⟩

/-- Every row a single scenario emits comes from an accepted path, hence
satisfies the drawdown and lost-decade bounds. -/
theorem scenario_rows_bounds (entry : ParamEntry) (paths : List (List ℝ))
    (start_id : ℕ) (row : FinalStatsRow) (hrow : row ∈ scenario_rows entry paths start_id) :
    row.max_drop ≤ 3 / 4 ∧ ∃ n, row.lost_decades = some n ∧ n ≤ 2 := by
  rw [scenario_rows] at hrow
  by_cases hemp : (paths.filter path_accepted).isEmpty
  · rw [if_pos hemp] at hrow
    simp at hrow
  · rw [if_neg hemp] at hrow
    obtain ⟨ip, hip, hrow⟩ := List.mem_map.mp hrow
    have hp : ip.2 ∈ paths.filter path_accepted := List.snd_mem_of_mem_enum hip
    have hacc : path_accepted ip.2 = true := (List.mem_filter.mp hp).2
    obtain ⟨hmd, n, hn, hn2⟩ := path_accepted_bounds ip.2 hacc
    subst hrow
    exact ⟨hmd, n, hn, hn2⟩

/-- A scenario contributes at most as many rows as it generated paths
(rejected paths are dropped, never replaced). -/
theorem scenario_rows_length_le (entry : ParamEntry) (paths : List (List ℝ))
    (start_id : ℕ) :
    (scenario_rows entry paths start_id).length ≤ paths.length := by
  rw [scenario_rows]
  by_cases hemp : (paths.filter path_accepted).isEmpty
  · rw [if_pos hemp]
    simp
  · rw [if_neg hemp]
    calc ((paths.filter path_accepted).enum.map _).length
        = (paths.filter path_accepted).length := by rw [List.length_map, List.enum_length]
      _ ≤ paths.length := List.length_filter_le _ _

/-- C8: every row of the final statistics table satisfies
`max_drop ≤ 0.75` and `lost_decades ≤ 2`, and each scenario contributes at
most one row per generated path (violating paths are discarded without
replacement). -/
theorem generate_final_statistics_library_bounds
    (scenarios : List (ParamEntry × List (List ℝ))) :
    (∀ row ∈ generate_final_statistics_library scenarios,
        row.max_drop ≤ 3 / 4 ∧ ∃ n, row.lost_decades = some n ∧ n ≤ 2) ∧
      (∀ (entry : ParamEntry) (paths : List (List ℝ)) (start_id : ℕ),
        (scenario_rows entry paths start_id).length ≤ paths.length) := by
  refine ⟨?_, fun entry paths start_id => scenario_rows_length_le entry paths start_id⟩
  rw [generate_final_statistics_library]
  have key : ∀ (l : List (ParamEntry × List (List ℝ))) (acc : List FinalStatsRow),
      (∀ row ∈ acc, row.max_drop ≤ 3 / 4 ∧ ∃ n, row.lost_decades = some n ∧ n ≤ 2) →
      ∀ row ∈ l.foldl (fun acc sc => acc ++ scenario_rows sc.1 sc.2 acc.length) acc,
        row.max_drop ≤ 3 / 4 ∧ ∃ n, row.lost_decades = some n ∧ n ≤ 2 := by
    intro l
    induction l with
    | nil => intro acc hacc row hrow; exact hacc row hrow
    | cons sc rest ih =>
      intro acc hacc row hrow
      refine ih (acc ++ scenario_rows sc.1 sc.2 acc.length) ?_ row hrow
      intro r hr
      rcases List.mem_append.mp hr with h | h
      · exact hacc r h
      · exact scenario_rows_bounds sc.1 sc.2 acc.length r h
  exact key scenarios [] (by intro row hrow; simp at hrow)

end PathEngine


namespace PathEngine

noncomputable instance : Inhabited FinalStatsRow :=
  ⟨⟨0, 0, 0, 0, 0, 0, 0, 0, none⟩⟩

/-- A concrete parameter-table row used for witness instances. -/
def testEntry : ParamEntry := ⟨0, 0, 0, 0, 0⟩

/-- The flat two-day path `[1, 1]` has a ten-year lost-period count of `0`. -/
theorem count_lost_periods_ones : count_lost_periods [(1 : ℝ), 1] 10 = some 0 := by
  have hp : pyInt ((10 : ℚ) * 252) = 2520 := by norm_num [pyInt]
  simp only [count_lost_periods, hp]
  norm_num

/-- The flat two-day path `[1, 1]` passes the Library Builder acceptance
filter. -/
theorem path_accepted_ones : path_accepted [(1 : ℝ), 1] = true := by
  rw [path_accepted, count_lost_periods_ones]
  simp [max_drop_stat, runningMax, listMin]
  norm_num

/-- C8 (witness): the library built from one scenario whose single generated
path is the flat path `[1, 1]` consists of rows satisfying both bounds; its
first row is such a row. -/
theorem generate_final_statistics_library_bounds_witness :
    (generate_final_statistics_library [(testEntry, [[(1 : ℝ), 1]])]).headI.max_drop ≤ 3 / 4 ∧
      ∃ n, (generate_final_statistics_library
          [(testEntry, [[(1 : ℝ), 1]])]).headI.lost_decades = some n ∧ n ≤ 2 := by
  have hfilter : ([[(1 : ℝ), 1]] : List (List ℝ)).filter path_accepted = [[(1 : ℝ), 1]] := by
    rw [List.filter_cons, if_pos path_accepted_ones, List.filter_nil]
  have hlib : generate_final_statistics_library [(testEntry, [[(1 : ℝ), 1]])]
      = scenario_rows testEntry [[(1 : ℝ), 1]] 0 := by
    rw [generate_final_statistics_library]
    simp
  have hlen : (scenario_rows testEntry [[(1 : ℝ), 1]] 0).length = 1 := by
    simp only [scenario_rows, hfilter]
    simp [List.enum, List.enumFrom]
  have hne : generate_final_statistics_library [(testEntry, [[(1 : ℝ), 1]])] ≠ [] := by
    rw [hlib]
    intro hc
    rw [hc] at hlen
    simp at hlen
  have hmem : (generate_final_statistics_library [(testEntry, [[(1 : ℝ), 1]])]).headI
      ∈ generate_final_statistics_library [(testEntry, [[(1 : ℝ), 1]])] := by
    cases hl : generate_final_statistics_library [(testEntry, [[(1 : ℝ), 1]])] with
    | nil => exact absurd hl hne
    | cons a as => exact List.mem_cons_self a as
  exact (generate_final_statistics_library_bounds _).1 _ hmem

end PathEngine

namespace PathEngine

/-! ### Scheduler lemmas: cooldown behaviour of `generate_clustered_crisis_events` -/

/-- Structure of a day's step: the event list only grows by events stamped
with that day, and any appended major event fired (its draw beat the day's
major rate). -/
theorem schedStep_events_eq (bm bM k : ℝ) (bp cp : ℕ) (a b : ℝ) (day : ℕ)
    (s : SchedState) :
    ∃ tail, (schedStep bm bM k bp cp a b day s).events = s.events ++ tail ∧
      ∀ x ∈ tail, x.1 = day ∧
        (x.2 = EvClass.major → b < major_rate_today bM k day s) := by
  by_cases hm : a < minor_rate_today bm k day s <;>
    by_cases hM : b < major_rate_today bM k day s
  · refine ⟨[(day, EvClass.minor), (day, EvClass.major)], ?_, ?_⟩
    · simp only [schedStep]
      rw [if_pos hm, if_pos hM]
      simp
    · intro x hx
      fin_cases hx
      · simp
      · exact ⟨rfl, fun _ => hM⟩
  · refine ⟨[(day, EvClass.minor)], ?_, ?_⟩
    · simp only [schedStep]
      rw [if_pos hm, if_neg hM]
    · intro x hx
      fin_cases hx
      simp
  · refine ⟨[(day, EvClass.major)], ?_, ?_⟩
    · simp only [schedStep]
      rw [if_neg hm, if_pos hM]
    · intro x hx
      fin_cases hx
      exact ⟨rfl, fun _ => hM⟩
  · refine ⟨[], ?_, ?_⟩
    · simp only [schedStep]
      rw [if_neg hm, if_neg hM]
      simp
    · intro x hx
      simp at hx

/-- A day's step only ever appends to the event list. -/
theorem schedStep_mem_of_mem (bm bM k : ℝ) (bp cp : ℕ) (a b : ℝ) (day : ℕ)
    (s : SchedState) (x : ℕ × EvClass) (hx : x ∈ s.events) :
    x ∈ (schedStep bm bM k bp cp a b day s).events := by
  obtain ⟨tail, heq, -⟩ := schedStep_events_eq bm bM k bp cp a b day s
  rw [heq]
  exact List.mem_append_left tail hx

/-- Any event present after a day's step was present before or is stamped
with that day. -/
theorem schedStep_stamp (bm bM k : ℝ) (bp cp : ℕ) (a b : ℝ) (day : ℕ)
    (s : SchedState) (x : ℕ × EvClass)
    (hx : x ∈ (schedStep bm bM k bp cp a b day s).events) :
    x ∈ s.events ∨ x.1 = day := by
  obtain ⟨tail, heq, htail⟩ := schedStep_events_eq bm bM k bp cp a b day s
  rw [heq] at hx
  rcases List.mem_append.mp hx with h | h
  · exact Or.inl h
  · exact Or.inr (htail x h).1

/-- A major event present after a day's step was present before, or fired
on that day (its uniform draw beat the day's major rate). -/
theorem schedStep_mem_major (bm bM k : ℝ) (bp cp : ℕ) (a b : ℝ) (day : ℕ)
    (s : SchedState) (e : ℕ)
    (hx : (e, EvClass.major) ∈ (schedStep bm bM k bp cp a b day s).events) :
    (e, EvClass.major) ∈ s.events ∨ (e = day ∧ b < major_rate_today bM k day s) := by
  obtain ⟨tail, heq, htail⟩ := schedStep_events_eq bm bM k bp cp a b day s
  rw [heq] at hx
  rcases List.mem_append.mp hx with h | h
  · exact Or.inl h
  · exact Or.inr ⟨(htail _ h).1, (htail _ h).2 rfl⟩

/-- Inside an active major cooldown window the major rate of the day is
forced to `0`. -/
theorem major_rate_in_cooldown (bM k : ℝ) (day : ℕ) (s : SchedState)
    (h : (day : ℤ) < s.major_cooldown_until) :
    major_rate_today bM k day s = 0 := by
  simp only [major_rate_today]
  rw [if_pos h]

/-- With nonnegative uniform draws, no major event can fire on a day inside
an active major cooldown window. -/
theorem no_major_fire_in_cooldown (bM k : ℝ) (b : ℝ) (day : ℕ) (s : SchedState)
    (hb : 0 ≤ b) (h : (day : ℤ) < s.major_cooldown_until) :
    ¬ b < major_rate_today bM k day s := by
  rw [major_rate_in_cooldown bM k day s h]
  exact not_lt.mpr hb

/-- When a major event fires, the step sets the cooldown horizon to
`day + cooldown_period`. -/
theorem schedStep_fired_cooldown (bm bM k : ℝ) (bp cp : ℕ) (a b : ℝ) (day : ℕ)
    (s : SchedState) (h : b < major_rate_today bM k day s) :
    (schedStep bm bM k bp cp a b day s).major_cooldown_until = (day : ℤ) + cp := by
  simp only [schedStep]
  rw [if_pos h]

/-- When a major event fires, the step sets the boost horizon to
`day + boost_period`. -/
theorem schedStep_fired_boost (bm bM k : ℝ) (bp cp : ℕ) (a b : ℝ) (day : ℕ)
    (s : SchedState) (h : b < major_rate_today bM k day s) :
    (schedStep bm bM k bp cp a b day s).boosted_major_until = (day : ℤ) + bp := by
  simp only [schedStep]
  rw [if_pos h]

/-- With a nonnegative major draw, the major cooldown horizon never
decreases across a day's step. -/
theorem schedStep_cooldown_mono (bm bM k : ℝ) (bp cp : ℕ) (a b : ℝ) (day : ℕ)
    (s : SchedState) (hb : 0 ≤ b) :
    s.major_cooldown_until ≤ (schedStep bm bM k bp cp a b day s).major_cooldown_until := by
  by_cases h : b < major_rate_today bM k day s
  · rw [schedStep_fired_cooldown bm bM k bp cp a b day s h]
    by_cases hcool : (day : ℤ) < s.major_cooldown_until
    · exact absurd h (no_major_fire_in_cooldown bM k b day s hb hcool)
    · push_neg at hcool
      have : (0 : ℤ) ≤ cp := Int.ofNat_nonneg cp
      omega
  · simp only [schedStep]
    rw [if_neg h]
    split_ifs <;> simp

end PathEngine

namespace PathEngine

/-- Every scheduled event is stamped with a day already processed. -/
theorem runSched_stamp_lt (bm bM k : ℝ) (bp cp : ℕ) (rm rM : ℕ → ℝ) :
    ∀ N (x : ℕ × EvClass),
      x ∈ (runSched bm bM k bp cp rm rM N).events → x.1 < N := by
  intro N
  induction N with
  | zero => intro x hx; simp [runSched, initSchedState] at hx
  | succ n ih =>
    intro x hx
    rcases schedStep_stamp bm bM k bp cp (rm n) (rM n) n _ x hx with h | h
    · exact Nat.lt_succ_of_lt (ih x h)
    · omega

/-- Scheduled events persist as the scan processes further days. -/
theorem runSched_mem_mono (bm bM k : ℝ) (bp cp : ℕ) (rm rM : ℕ → ℝ)
    {N M : ℕ} (h : N ≤ M) (x : ℕ × EvClass)
    (hx : x ∈ (runSched bm bM k bp cp rm rM N).events) :
    x ∈ (runSched bm bM k bp cp rm rM M).events := by
  induction M with
  | zero =>
    have : N = 0 := Nat.le_zero.mp h
    subst this
    exact hx
  | succ n ih =>
    rcases Nat.lt_or_ge N (n + 1) with h1 | h1
    · exact schedStep_mem_of_mem bm bM k bp cp (rm n) (rM n) n _ x (ih (by omega))
    · have : N = n + 1 := by omega
      subst this
      exact hx

/-- A scheduled event is already present right after its own day's step. -/
theorem runSched_mem_from (bm bM k : ℝ) (bp cp : ℕ) (rm rM : ℕ → ℝ) :
    ∀ N (x : ℕ × EvClass), x ∈ (runSched bm bM k bp cp rm rM N).events →
      ∀ M, x.1 < M → x ∈ (runSched bm bM k bp cp rm rM M).events := by
  intro N
  induction N with
  | zero => intro x hx; simp [runSched, initSchedState] at hx
  | succ n ih =>
    intro x hx M hM
    by_cases hprev : x ∈ (runSched bm bM k bp cp rm rM n).events
    · exact ih x hprev M hM
    · have hday : x.1 = n := by
        rcases schedStep_stamp bm bM k bp cp (rm n) (rM n) n _ x hx with h | h
        · exact absurd h hprev
        · exact h
      exact runSched_mem_mono bm bM k bp cp rm rM (by omega) x hx

/-- Every major event that fired forces the cooldown horizon at least
`cooldown_period` days past its own day, and the horizon never falls back
below that while the scan continues (nonnegative draws). -/
theorem runSched_cooldown_of_major (bm bM k : ℝ) (bp cp : ℕ) (rm rM : ℕ → ℝ)
    (hr : ∀ n, 0 ≤ rM n) :
    ∀ N d, (d, EvClass.major) ∈ (runSched bm bM k bp cp rm rM N).events →
      (d : ℤ) + cp ≤ (runSched bm bM k bp cp rm rM N).major_cooldown_until := by
  intro N
  induction N with
  | zero => intro d hd; simp [runSched, initSchedState] at hd
  | succ n ih =>
    intro d hd
    rcases schedStep_mem_major bm bM k bp cp (rm n) (rM n) n _ d hd with h | ⟨hdn, hfired⟩
    · exact le_trans (ih d h)
        (schedStep_cooldown_mono bm bM k bp cp (rm n) (rM n) n _ (hr n))
    · rw [hdn]
      exact le_of_eq
        (schedStep_fired_cooldown bm bM k bp cp (rm n) (rM n) n _ hfired).symm

/-- A major event in the final list fired on its own day: its draw beat the
major rate computed from the state at the start of that day. -/
theorem runSched_major_fired (bm bM k : ℝ) (bp cp : ℕ) (rm rM : ℕ → ℝ) :
    ∀ N e, (e, EvClass.major) ∈ (runSched bm bM k bp cp rm rM N).events →
      rM e < major_rate_today bM k e (runSched bm bM k bp cp rm rM e) := by
  intro N
  induction N with
  | zero => intro e he; simp [runSched, initSchedState] at he
  | succ n ih =>
    intro e he
    rcases schedStep_mem_major bm bM k bp cp (rm n) (rM n) n _ e he with h | ⟨hen, hfired⟩
    · exact ih e h
    · subst hen
      exact hfired

/-- C5: for every random stream of nonnegative uniform draws, once a major
event fires on day `d`, no major event fires on any day strictly between
`d` and `d + cooldown_period` (both class rates are zeroed inside the
active cooldown window). -/
theorem major_cooldown_no_refire (base_minor_rate base_major_rate k : ℝ)
    (boost_period cooldown_period : ℕ) (rand_minor rand_major : ℕ → ℝ)
    (days d e : ℕ) (hr : ∀ n, 0 ≤ rand_major n)
    (hd : (d, EvClass.major) ∈ generate_clustered_crisis_events days
      base_minor_rate base_major_rate k rand_minor rand_major
      boost_period cooldown_period)
    (hde : d < e) (hwin : (e : ℤ) < (d : ℤ) + cooldown_period) :
    (e, EvClass.major) ∉ generate_clustered_crisis_events days
      base_minor_rate base_major_rate k rand_minor rand_major
      boost_period cooldown_period := by
  intro he
  rw [generate_clustered_crisis_events, List.mem_mergeSort] at hd he
  have hfired := runSched_major_fired base_minor_rate base_major_rate k
    boost_period cooldown_period rand_minor rand_major days e he
  have hdmem : (d, EvClass.major) ∈ (runSched base_minor_rate base_major_rate k
      boost_period cooldown_period rand_minor rand_major e).events :=
    runSched_mem_from base_minor_rate base_major_rate k boost_period cooldown_period
      rand_minor rand_major days (d, EvClass.major) hd e hde
  have hcool := runSched_cooldown_of_major base_minor_rate base_major_rate k
    boost_period cooldown_period rand_minor rand_major hr e d hdmem
  have hlt : (e : ℤ) < (runSched base_minor_rate base_major_rate k
      boost_period cooldown_period rand_minor rand_major e).major_cooldown_until := by
    omega
  exact no_major_fire_in_cooldown base_major_rate k (rand_major e) e _ (hr e) hlt hfired

/-- C5 (witness): with `base_major_rate = 1`, zero draws and
`cooldown_period = 2`, a major event fires on day `0` of a one-day run, and
the theorem instantiates to rule out a major on day `1`. -/
theorem major_cooldown_no_refire_witness :
    (1, EvClass.major) ∉ generate_clustered_crisis_events 1 0 1 1
      (fun _ => 0) (fun _ => 0) 0 2 := by
  have hmem : (0, EvClass.major) ∈ generate_clustered_crisis_events 1 0 1 1
      (fun _ => 0) (fun _ => 0) 0 2 := by
    rw [generate_clustered_crisis_events, List.mem_mergeSort]
    show (0, EvClass.major) ∈ (schedStep 0 1 1 0 2 0 0 0 initSchedState).events
    simp only [schedStep, minor_rate_today, major_rate_today, initSchedState]
    norm_num
  exact major_cooldown_no_refire 0 1 1 0 2 (fun _ => 0) (fun _ => 0) 1 0 1
    (fun _ => le_refl 0) hmem (by norm_num) (by norm_num)

/-- C6 (amended): whenever a major event fires at the default parameters
(which the pipelines use), the step sets the boost horizon to
`day + 2000` and the cooldown horizon to `day + 756`; the cooldown window
is strictly SHORTER than the boost window. -/
theorem major_fire_sets_windows (bm bM k : ℝ) (rm rM : ℝ) (day : ℕ)
    (s : SchedState) (hfire : rM < major_rate_today bM k day s) :
    (schedStep bm bM k boost_period_default cooldown_period_default
        rm rM day s).boosted_major_until = (day : ℤ) + boost_period_default ∧
      (schedStep bm bM k boost_period_default cooldown_period_default
          rm rM day s).major_cooldown_until = (day : ℤ) + cooldown_period_default ∧
      cooldown_period_default < boost_period_default :=
  ⟨schedStep_fired_boost bm bM k boost_period_default cooldown_period_default
      rm rM day s hfire,
    schedStep_fired_cooldown bm bM k boost_period_default cooldown_period_default
      rm rM day s hfire,
    by norm_num [cooldown_period_default, boost_period_default]⟩

/-- C6 (witness): on day `0` from the initial state with `base_major_rate =
1` and draw `0`, a major fires and the windows are `2000` and `756`. -/
theorem major_fire_sets_windows_witness :
    (schedStep 0 1 1 boost_period_default cooldown_period_default
        0 0 0 initSchedState).boosted_major_until = (0 : ℤ) + boost_period_default ∧
      (schedStep 0 1 1 boost_period_default cooldown_period_default
          0 0 0 initSchedState).major_cooldown_until = (0 : ℤ) + cooldown_period_default ∧
      cooldown_period_default < boost_period_default := by
  refine major_fire_sets_windows 0 1 1 0 0 0 initSchedState ?_
  simp only [major_rate_today, initSchedState]
  norm_num

/-- C6 (counterexample): at the defaults used by every pipeline, the major
event fired on day `0` sets `major_cooldown_until = 756` and
`boosted_major_until = 2000`: the cooldown window it sets is strictly
shorter, not strictly longer, than the boost window. -/
theorem major_cooldown_shorter_counterexample :
    (0, EvClass.major) ∈ (schedStep 0 1 1 boost_period_default cooldown_period_default
        0 0 0 initSchedState).events ∧
      (schedStep 0 1 1 boost_period_default cooldown_period_default
          0 0 0 initSchedState).major_cooldown_until
        < (schedStep 0 1 1 boost_period_default cooldown_period_default
            0 0 0 initSchedState).boosted_major_until := by
  constructor
  · simp only [schedStep, minor_rate_today, major_rate_today, initSchedState]
    norm_num
  · have hfire : (0 : ℝ) < major_rate_today 1 1 0 initSchedState := by
      simp only [major_rate_today, initSchedState]
      norm_num
    rw [schedStep_fired_cooldown 0 1 1 boost_period_default cooldown_period_default
        0 0 0 initSchedState hfire,
      schedStep_fired_boost 0 1 1 boost_period_default cooldown_period_default
        0 0 0 initSchedState hfire]
    norm_num [cooldown_period_default, boost_period_default]

end PathEngine
